import Mathlib

/-!
Shallow embedding of the isolated execution orchestrator of
`langwatch_nlp/studio` (files `app.py` and `types/events.py`), together
with theorems settling the specification claims about it.

Conventions of the embedding:
* Python `time.time() * 1000` timestamps are passed in as an explicit
  `now : Int` parameter.
* The external work-execution collaborators (`execute_component`,
  `execute_flow`, `execute_evaluation`, `execute_optimization`) are out of
  scope per the spec; their behaviour is a parameter `CollabOutcome`: the
  finite sequence of events they yield, optionally cut short by a raised
  exception (carried as its `repr` string).
* Async generators become Lean functions returning the list of events
  they yield; queues become lists of messages.
-/

namespace Studio

/-! ## Data model: `types/events.py` -/

/-- `ExecutionStatus` from `types/dsl.py` (that file is not under `src/`;
the members used by `events.py` and `app.py` are `running`, `success`,
`error`, as the spec's status enum states). -/
inductive ExecutionStatus where
  | running
  | success
  | error
  deriving DecidableEq, Repr

/-- `Timestamps` from `types/dsl.py`: optional millisecond timestamps,
absent by default. -/
structure Timestamps where
  started_at : Option Int := none
  finished_at : Option Int := none
  stopped_at : Option Int := none
  deriving DecidableEq, Repr

/-- `ExecutionState` from `types/dsl.py`: the per-component execution
state embedded in `ComponentStateChange`.  Optional fields default to
absent, as pydantic optionals do.  (`types/dsl.py` is not under `src/`;
the fields are those assigned by `start_component_event`,
`end_component_event` and `component_error_event` in `types/events.py`,
all optional per the spec's round-trip property.) -/
structure ExecutionState where
  status : ExecutionStatus
  trace_id : Option String := none
  timestamps : Option Timestamps := none
  inputs : Option (List (String × String)) := none
  outputs : Option (List (String × String)) := none
  error : Option String := none
  deriving DecidableEq, Repr

/-- `WorkflowExecutionState` carried by `ExecutionStateChange`.
Modelled from the spec: `types/dsl.py` is not under `src/`; the fields
are the ones `execute_sync` in `app.py` reads (`status`, `trace_id`,
`result` — a string-keyed map whose `end` entry is the pipeline's
designated terminal output value — and `error`). -/
structure WorkflowExecutionState where
  status : ExecutionStatus
  trace_id : String
  result : Option (List (String × String)) := none
  error : Option String := none
  deriving DecidableEq, Repr

/-- `EvaluationExecutionState` carried by `EvaluationStateChange`.
Modelled from the spec: `types/dsl.py` and
`execute/execute_evaluation.py` are not under `src/`; per the spec a
stop emits the corresponding terminal state-change event with an error
and a stopped timestamp. -/
structure EvaluationExecutionState where
  status : ExecutionStatus
  run_id : String
  error : Option String := none
  stopped_at : Option Int := none
  deriving DecidableEq, Repr

/-- `OptimizationExecutionState` carried by `OptimizationStateChange`.
Modelled from the spec: `types/dsl.py` and
`execute/execute_optimization.py` are not under `src/`; same shape as
the evaluation variant. -/
structure OptimizationExecutionState where
  status : ExecutionStatus
  run_id : String
  error : Option String := none
  stopped_at : Option Int := none
  deriving DecidableEq, Repr

/-- `ComponentStateChangePayload` from `types/events.py`. -/
structure ComponentStateChangePayload where
  component_id : String
  execution_state : ExecutionState
  deriving DecidableEq, Repr

/-- `StudioServerEvent` from `types/events.py`: the tagged union of
events the orchestrator sends to the client. -/
inductive StudioServerEvent where
  | isAliveResponse
  | componentStateChange (payload : ComponentStateChangePayload)
  | executionStateChange (execution_state : WorkflowExecutionState)
  | evaluationStateChange (evaluation_state : EvaluationExecutionState)
  | optimizationStateChange (optimization_state : OptimizationExecutionState)
  | debug (message : String)
  | error (message : String)
  | done
  deriving DecidableEq, Repr

/-- `ExecuteComponentPayload` from `types/events.py` (the `workflow`
field, opaque to the orchestrator, is omitted). -/
structure ExecuteComponentPayload where
  trace_id : String
  node_id : String
  inputs : List (String × String) := []
  deriving DecidableEq, Repr

/-- `StopExecutionPayload` from `types/events.py`. -/
structure StopExecutionPayload where
  trace_id : String
  node_id : Option String := none
  deriving DecidableEq, Repr

/-- `ExecuteFlowPayload` from `types/events.py` (the `workflow` field,
opaque to the orchestrator, is omitted). -/
structure ExecuteFlowPayload where
  trace_id : String
  until_node_id : Option String := none
  deriving DecidableEq, Repr

/-- `ExecuteEvaluationPayload` from `types/events.py` (`workflow` and
`evaluate_on` are opaque to the orchestrator and omitted). -/
structure ExecuteEvaluationPayload where
  run_id : String
  workflow_version_id : String
  deriving DecidableEq, Repr

/-- `StopEvaluationExecutionPayload` from `types/events.py` (`workflow`
only supplies reporting credentials and is omitted). -/
structure StopEvaluationExecutionPayload where
  run_id : String
  deriving DecidableEq, Repr

/-- `ExecuteOptimizationPayload` from `types/events.py` (`workflow`,
`optimizer` and `params` are opaque to the orchestrator and omitted). -/
structure ExecuteOptimizationPayload where
  run_id : String
  workflow_version_id : String
  deriving DecidableEq, Repr

/-- `StopOptimizationExecutionPayload` from `types/events.py`. -/
structure StopOptimizationExecutionPayload where
  run_id : String
  deriving DecidableEq, Repr

/-- `StudioClientEvent` from `types/events.py`: the tagged union of
client requests.  The extra `unknownEvent tag` constructor represents an
incoming event whose `type` tag lies outside the union — the value the
`case _` arm of `execute_event` in `app.py` dispatches on. -/
inductive StudioClientEvent where
  | isAlive
  | executeComponent (payload : ExecuteComponentPayload)
  | stopExecution (payload : StopExecutionPayload)
  | executeFlow (payload : ExecuteFlowPayload)
  | executeEvaluation (payload : ExecuteEvaluationPayload)
  | stopEvaluationExecution (payload : StopEvaluationExecutionPayload)
  | executeOptimization (payload : ExecuteOptimizationPayload)
  | stopOptimizationExecution (payload : StopOptimizationExecutionPayload)
  | unknownEvent (tag : String)
  deriving DecidableEq, Repr

/-- The `type` literal tag of each client event variant
(`type: Literal[...]` in `types/events.py`). -/
def StudioClientEvent.eventType : StudioClientEvent → String
  | .isAlive => "is_alive"
  | .executeComponent _ => "execute_component"
  | .stopExecution _ => "stop_execution"
  | .executeFlow _ => "execute_flow"
  | .executeEvaluation _ => "execute_evaluation"
  | .stopEvaluationExecution _ => "stop_evaluation_execution"
  | .executeOptimization _ => "execute_optimization"
  | .stopOptimizationExecution _ => "stop_optimization_execution"
  | .unknownEvent tag => tag

/-- The `type` tags of the `StudioClientEvent` union in
`types/events.py`; a tag outside this list is unrecognized. -/
def knownClientEventTypes : List String :=
  ["is_alive", "execute_component", "stop_execution", "execute_flow",
   "execute_evaluation", "stop_evaluation_execution",
   "execute_optimization", "stop_optimization_execution"]

/-- Python truthiness of an optional dict: `None` and `{}` are falsy. -/
def optListTruthy {α : Type} : Option (List α) → Bool
  | none => false
  | some l => !l.isEmpty

/-- `start_component_event` from `types/events.py`: running state with a
`started_at` timestamp, the given `trace_id`, and — only when the
`inputs` argument is truthy — the given inputs.  (`node : Node` is
represented by its `id`, the only field read.) -/
def start_component_event (now : Int) (node_id : String) (trace_id : String)
    (inputs : Option (List (String × String))) : StudioServerEvent :=
  let execution_state : ExecutionState :=
    { status := ExecutionStatus.running
      trace_id := some trace_id
      timestamps := some { started_at := some now } }
  let execution_state :=
    if optListTruthy inputs then { execution_state with inputs := inputs }
    else execution_state
  StudioServerEvent.componentStateChange
    { component_id := node_id, execution_state := execution_state }

/-- `component_error_event` from `types/events.py`: error state with the
message and a `finished_at` timestamp.  The `trace_id` argument is
accepted but never used in the body. -/
def component_error_event (now : Int) (trace_id : String) (node_id : String)
    (error : String) : StudioServerEvent :=
  StudioServerEvent.componentStateChange
    { component_id := node_id
      execution_state :=
        { status := ExecutionStatus.error
          error := some error
          timestamps := some { finished_at := some now } } }

/-- Modelled from the spec: `error_evaluation_event` lives in
`execute/execute_evaluation.py`, which is not under `src/`; per the spec
a stop emits the corresponding terminal state-change event carrying the
error and the stopped timestamp. -/
def error_evaluation_event (run_id : String) (error : String)
    (stopped_at : Int) : StudioServerEvent :=
  StudioServerEvent.evaluationStateChange
    { status := ExecutionStatus.error
      run_id := run_id
      error := some error
      stopped_at := some stopped_at }

/-- Modelled from the spec: `error_optimization_event` lives in
`execute/execute_optimization.py`, which is not under `src/`; same shape
as the evaluation variant. -/
def error_optimization_event (run_id : String) (error : String)
    (stopped_at : Int) : StudioServerEvent :=
  StudioServerEvent.optimizationStateChange
    { status := ExecutionStatus.error
      run_id := run_id
      error := some error
      stopped_at := some stopped_at }

/-! ## Worker-side execution: `execute_event` in `app.py` -/

/-- Behaviour of the external work-execution collaborator for one
assignment: either it yields a finite sequence of events and finishes, or
it yields a prefix and then raises an exception whose `repr` is the
carried string. -/
inductive CollabOutcome where
  | ok (events : List StudioServerEvent)
  | raises (events : List StudioServerEvent) (exn : String)
  deriving DecidableEq, Repr

/-- The operation-specific events produced by the `match event.type`
body of `execute_event` in `app.py` (everything between the initial
debug event and the final done marker). -/
def execute_event_body (now : Int) (event : StudioClientEvent)
    (collab : CollabOutcome) : List StudioServerEvent :=
  match event with
  | .isAlive => [StudioServerEvent.isAliveResponse]
  | .executeComponent p =>
    match collab with
    | .ok evs => evs
    | .raises evs e =>
      evs ++ [component_error_event now p.trace_id p.node_id e]
  | .executeFlow _ =>
    match collab with
    | .ok evs => evs
    | .raises evs e => evs ++ [StudioServerEvent.error e]
  | .executeEvaluation _ =>
    match collab with
    | .ok evs => evs
    | .raises evs e => evs ++ [StudioServerEvent.error e]
  | .executeOptimization _ =>
    match collab with
    | .ok evs => evs
    | .raises evs e => evs ++ [StudioServerEvent.error e]
  | e =>
    [StudioServerEvent.error
      ("Unknown event type from client: " ++ e.eventType)]

/-- `execute_event` in `app.py`: the async generator run inside the
worker.  It yields a debug event, dispatches on the event's `type` tag
(the stop variants and unknown tags both fall to the `case _` arm,
producing a protocol error), and unconditionally yields the terminal
done marker last. -/
def execute_event (now : Int) (event : StudioClientEvent)
    (collab : CollabOutcome) : List StudioServerEvent :=
  StudioServerEvent.debug ("server starting execution")
    :: (execute_event_body now event collab ++ [StudioServerEvent.done])

/-- Whether a server event is the terminal done marker. -/
def StudioServerEvent.isDone : StudioServerEvent → Bool
  | .done => true
  | _ => false

/-- Whether a stream's very last event is the terminal done marker. -/
def endsWithDone (stream : List StudioServerEvent) : Bool :=
  match stream.getLast? with
  | some e => e.isDone
  | none => false

/-! ## The worker loop: `event_worker` in `app.py` -/

/-- One message on a worker's inbound channel: `none` is the sentinel
that makes the loop `break`; `some` carries an assignment together with
its collaborator behaviour.  (`queue.Empty` timeouts of `queue_in.get`
just `continue` the loop and are elided.) -/
abbrev WorkerInbox := List (Option (StudioClientEvent × CollabOutcome))

/-- `event_worker` in `app.py`: the loop run inside an isolated worker
process.  It repeatedly takes a message from the inbound channel; the
`None` sentinel breaks the loop, and an assignment is executed via
`execute_event`, every yielded event being put on the outbound channel.
Returns the outbound channel contents and the number of assignments
served before exiting.  An exhausted inbox models observation being cut
off while the loop still blocks on `queue_in.get`. -/
def event_worker (now : Int) : WorkerInbox → List StudioServerEvent × Nat
  | [] => ([], 0)
  | none :: _ => ([], 0)
  | some (event, collab) :: rest =>
    let out := execute_event now event collab
    let tail := event_worker now rest
    (out ++ tail.1, tail.2 + 1)

/-! ## Orchestrator shutdown: `shutdown_handler` in `app.py` -/

/-- Primitive steps the signal handler performs, in Python order:
`threading.Timer(3.0, forceful_exit).start()`, then `sys.exit(0)` inside
a `try` whose `finally` runs `timer.cancel()` while the raised
`SystemExit` is unwinding — i.e. before the exception propagates out of
the handler into the interrupted frames. -/
inductive ShutdownAction where
  | armTimer (seconds : Nat)
  | raiseSystemExit (code : Nat)
  | cancelTimer
  deriving DecidableEq, Repr

/-- `shutdown_handler` in `app.py` as its ordered action trace.
`sys.exit(0)` raises `SystemExit` immediately; the `finally` clause
cancels the timer during unwinding, so the cancel precedes any
propagation of the exit through the frames the signal interrupted. -/
def shutdown_handler : List ShutdownAction :=
  [ShutdownAction.armTimer 3, ShutdownAction.raiseSystemExit 0,
   ShutdownAction.cancelTimer]

/-- Whether the escalation timer is still armed once a handler's own
trace has run to completion (at that point graceful exit — propagation
of `SystemExit` — has only just begun and may still stall). -/
def timerArmedAfter (trace : List ShutdownAction) : Bool :=
  trace.foldl
    (fun armed a =>
      match a with
      | ShutdownAction.armTimer _ => true
      | ShutdownAction.cancelTimer => false
      | ShutdownAction.raiseSystemExit _ => armed)
    false

/-! ## The cancellation registry: `running_processes` in `app.py` -/

/-- `RunningProcess` in `app.py`: worker handle and its outbound
channel, both abstracted to identifiers. -/
structure RunningProcess where
  process : Nat
  queueId : Nat
  deriving DecidableEq, Repr

/-- The `running_processes` dict: an association list keyed by execution
identifier. -/
abbrev RegTable := List (String × RunningProcess)

/-- `trace_id in running_processes`. -/
def regLookup (table : RegTable) (tid : String) : Option RunningProcess :=
  (table.find? (fun p => p.1 == tid)).map (fun p => p.2)

/-- `del running_processes[trace_id]`: removes the entry for the key.
(A Python dict holds at most one entry per key, so removing every
association-list entry with this key models the single-entry delete.) -/
def regErase (table : RegTable) (tid : String) : RegTable :=
  List.filter (fun p => p.1 != tid) table

/-- `get_trace_id` in `app.py`: the payload's `trace_id` when it has
one, else its `run_id`, else `None`.  An unknown event's payload is not
assumed to carry either attribute. -/
def get_trace_id : StudioClientEvent → Option String
  | .isAlive => none
  | .executeComponent p => some p.trace_id
  | .stopExecution p => some p.trace_id
  | .executeFlow p => some p.trace_id
  | .executeEvaluation p => some p.run_id
  | .stopEvaluationExecution p => some p.run_id
  | .executeOptimization p => some p.run_id
  | .stopOptimizationExecution p => some p.run_id
  | .unknownEvent _ => none

/-- Lines 219-221 of `app.py`: `if trace_id and trace_id not in
running_processes: running_processes[trace_id] = ...`.  Python
truthiness makes the empty string falsy. -/
def registerProcess (table : RegTable) (tid : Option String)
    (rec : RunningProcess) : RegTable :=
  match tid with
  | some t =>
    if t != "" && (regLookup table t).isNone then table ++ [(t, rec)]
    else table
  | none => table

/-- Lines 260-262 of `app.py` (the supervisor's `finally`): `if trace_id
and trace_id in running_processes: del running_processes[trace_id]`. -/
def cleanupRecord (table : RegTable) (tid : Option String) : RegTable :=
  match tid with
  | some t =>
    if t != "" && (regLookup table t).isSome then regErase table t
    else table
  | none => table

/-! ## Stopping a running execution: `stop_process` in `app.py` -/

/-- The grace interval of `stop_process`: `await asyncio.sleep(0.2)`,
in milliseconds. -/
def stopGraceMs : Nat := 200

/-- Result of `stop_process`: the sentinel put on the record's channel,
the updated table, and whether the worker was force-terminated. -/
structure StopOutcome where
  sentinel : StudioServerEvent
  table : RegTable
  killed : Bool

/-- `stop_process` in `app.py`: put the `Done()` sentinel on the
record's channel, sleep the grace interval, then — because the targeted
execution's own supervisor generally sees the sentinel and cleans up by
itself during that sleep (modelled by `removedDuringGrace`) — check the
table again: if the record still exists, force-terminate the worker
(`kill_process`) and delete the record. -/
def stop_process (table : RegTable) (tid : String)
    (removedDuringGrace : Bool) : StopOutcome :=
  let t1 := if removedDuringGrace then regErase table tid else table
  if (regLookup t1 tid).isSome then
    { sentinel := StudioServerEvent.done
      table := regErase t1 tid
      killed := true }
  else
    { sentinel := StudioServerEvent.done
      table := t1
      killed := false }

/-! ## The supervisor poll loop (lines 228-251 of `app.py`) -/

/-- One observation of the supervisor's non-blocking poll of the
worker's outbound channel: either a message was available, or the
channel was empty (`queue.Empty`), with the worker's liveness at that
instant; the empty case costs one `asyncio.sleep(0.1)` tick. -/
inductive PollObs where
  | msg (m : StudioServerEvent)
  | empty (processAlive : Bool)
  deriving DecidableEq, Repr

/-- How the poll loop was exited. -/
inductive LoopExit where
  | doneExit
  | timeout
  | crashed
  | obsCutOff
  deriving DecidableEq, Repr

/-- The `while time_since_last_message < timeout_without_messages` loop
of `execute_event_on_a_subprocess`.  `budget` is
`timeout_without_messages` in seconds; `sinceLast` counts elapsed
0.1-second sleep ticks since the last message.  A received message is
relayed and resets the inactivity timer; the done marker breaks the loop;
on an empty poll with the worker dead (and a budget above the 10-second
grace threshold) the loop raises `Exception("Runtime crashed")`; the
loop condition failing with no done marker seen is a timeout.  An
exhausted observation list (`obsCutOff`) models observation being cut
off mid-loop and corresponds to no exit path of the code. -/
def pollLoop (budget sinceLast : Nat) :
    List PollObs → List StudioServerEvent × LoopExit
  | [] =>
    if budget * 10 ≤ sinceLast then ([], LoopExit.timeout)
    else ([], LoopExit.obsCutOff)
  | PollObs.msg m :: rest =>
    if budget * 10 ≤ sinceLast then ([], LoopExit.timeout)
    else if m.isDone then ([m], LoopExit.doneExit)
    else
      let tail := pollLoop budget 0 rest
      (m :: tail.1, tail.2)
  | PollObs.empty alive :: rest =>
    if budget * 10 ≤ sinceLast then ([], LoopExit.timeout)
    else if decide (10 < budget) && !alive then ([], LoopExit.crashed)
    else pollLoop budget (sinceLast + 1) rest

/-- `timeout_without_messages` in `app.py`: 120 seconds by default,
raised to 120 minutes for `execute_optimization`. -/
def timeoutFor : StudioClientEvent → Nat
  | .executeOptimization _ => 120 * 60
  | _ => 120

/-! ## The execution supervisor: `execute_event_on_a_subprocess` -/

/-- Everything one run of `execute_event_on_a_subprocess` produces: the
stream of events yielded to the caller, the `running_processes` table
after the run, whether the `Done()` stop sentinel was put on a record's
channel, and whether the worker was signalled with `kill_process`. -/
structure SupOutcome where
  stream : List StudioServerEvent
  table : RegTable
  sentinelSent : Bool
  workerKilled : Bool

/-- Environment of one supervisor run, abstracting its interactions with
the outside world: the fresh worker returned by `pool.submit`, the
sequence of poll observations of its outbound channel, whether the
worker is still alive when the `finally` block runs, whether — during a
stop request's grace sleep — the stopped execution's own supervisor
concurrently removed the record, and the current wall-clock time in
milliseconds. -/
structure SupEnv where
  worker : RunningProcess
  obs : List PollObs
  aliveAtEnd : Bool
  removedDuringGrace : Bool
  now : Int

/-- `execute_event_on_a_subprocess` in `app.py`.  Stop requests are
handled first and return without reaching the worker path: each looks up
its execution id in `running_processes`, and only when a record exists
invokes `stop_process` and yields its operation-specific event
(`component_error_event` or `Error("Interrupted")` for `stop_execution`,
the stopped evaluation/optimization state change for the other two).
Any other event is submitted to the pool, registered in
`running_processes` (only if absent), polled with the inactivity budget,
and on exit of the poll loop the timeout or crash error is yielded; the
`finally` block kills a still-alive worker and deletes the record. -/
def execute_event_on_a_subprocess (table : RegTable)
    (event : StudioClientEvent) (env : SupEnv) : SupOutcome :=
  match event with
  | .stopExecution p =>
    if (regLookup table p.trace_id).isSome then
      let stopped := stop_process table p.trace_id env.removedDuringGrace
      let stream :=
        match p.node_id with
        | some nid =>
          [component_error_event env.now p.trace_id nid ("Interrupted")]
        | none => [StudioServerEvent.error ("Interrupted")]
      { stream := stream, table := stopped.table, sentinelSent := true
        workerKilled := stopped.killed }
    else
      { stream := [], table := table, sentinelSent := false
        workerKilled := false }
  | .stopEvaluationExecution p =>
    if (regLookup table p.run_id).isSome then
      let stopped := stop_process table p.run_id env.removedDuringGrace
      { stream :=
          [error_evaluation_event p.run_id ("Evaluation Stopped") env.now]
        table := stopped.table, sentinelSent := true
        workerKilled := stopped.killed }
    else
      { stream := [], table := table, sentinelSent := false
        workerKilled := false }
  | .stopOptimizationExecution p =>
    if (regLookup table p.run_id).isSome then
      let stopped := stop_process table p.run_id env.removedDuringGrace
      { stream :=
          [error_optimization_event p.run_id ("Optimization Stopped")
            env.now]
        table := stopped.table, sentinelSent := true
        workerKilled := stopped.killed }
    else
      { stream := [], table := table, sentinelSent := false
        workerKilled := false }
  | _ =>
    let tid := get_trace_id event
    let table1 := registerProcess table tid env.worker
    let polled := pollLoop (timeoutFor event) 0 env.obs
    let tail : List StudioServerEvent × Bool :=
      match polled.2 with
      | LoopExit.doneExit => ([], false)
      | LoopExit.timeout =>
        ([StudioServerEvent.error ("Execution timed out")], true)
      | LoopExit.crashed =>
        ([StudioServerEvent.error
            ("Unexpected error: Exception('Runtime crashed')")], false)
      | LoopExit.obsCutOff => ([], false)
    { stream := polled.1 ++ tail.1
      table := cleanupRecord table1 tid
      sentinelSent := false
      workerKilled := tail.2 || env.aliveAtEnd }

/-- Whether a client event is one of the three stop requests. -/
def StudioClientEvent.isStopRequest : StudioClientEvent → Bool
  | .stopExecution _ => true
  | .stopEvaluationExecution _ => true
  | .stopOptimizationExecution _ => true
  | _ => false

/-! ## The synchronous endpoint: `execute_sync` in `app.py` -/

/-- `.get("end")` on the result dict. -/
def assocGet (l : List (String × String)) (key : String) : Option String :=
  (l.find? (fun p => p.1 == key)).map (fun p => p.2)

/-- `result.get("end") if result else None` — Python truthiness makes an
empty result dict yield `None`. -/
def resultEnd (result : Option (List (String × String))) : Option String :=
  match result with
  | some r => if r.isEmpty then none else assocGet r ("end")
  | none => none

/-- Outcome of `execute_sync`: the success JSON response (execution id,
status `success`, the result's `end` value) or a raised `HTTPException`
with status code and detail. -/
inductive SyncResult where
  | success (trace_id : String) (result : Option String)
  | httpError (status_code : Nat) (detail : Option String)
  deriving DecidableEq, Repr

/-- The `async for` loop of `execute_sync` in `app.py`, driving the
supervisor's stream without forwarding intermediate events: the first
execution-state-change with status `success` returns the response, the
first with status `error` raises HTTP 500 with the carried error, any
other event (and a running state change) is skipped, and an exhausted
stream raises the generic HTTP 500. -/
def execute_sync_loop : List StudioServerEvent → SyncResult
  | [] =>
    SyncResult.httpError 500
      (some ("Execution completed without success or error status"))
  | StudioServerEvent.executionStateChange st :: rest =>
    if st.status = ExecutionStatus.success then
      SyncResult.success st.trace_id (resultEnd st.result)
    else if st.status = ExecutionStatus.error then
      SyncResult.httpError 500 st.error
    else execute_sync_loop rest
  | _ :: rest => execute_sync_loop rest

/-- `execute_sync` in `app.py`: drives the supervisor's stream for the
event through the monitoring loop. -/
def execute_sync (table : RegTable) (event : StudioClientEvent)
    (env : SupEnv) : SyncResult :=
  execute_sync_loop (execute_event_on_a_subprocess table event env).stream

/-! ## Helper definitions used only by theorem statements -/

/-- Whether a client event is the `execute_optimization` variant. -/
def StudioClientEvent.isExecuteOptimization : StudioClientEvent → Bool
  | .executeOptimization _ => true
  | _ => false

/-- Whether a server event is an execution-state-change whose status is
terminal (`success` or `error`) — the events `execute_sync` acts on. -/
def isTerminalStateChange : StudioServerEvent → Bool
  | .executionStateChange st =>
    st.status == ExecutionStatus.success
      || st.status == ExecutionStatus.error
  | _ => false

/-- The execution state carried by a component-state-change event. -/
def eventExecutionState : StudioServerEvent → Option ExecutionState
  | .componentStateChange p => some p.execution_state
  | _ => none

/-- The concatenation of the worker-level streams of a list of
assignments, i.e. what an unbounded worker loop puts on its outbound
channel while serving them all. -/
def servedOutputs (now : Int) :
    List (StudioClientEvent × CollabOutcome) → List StudioServerEvent
  | [] => []
  | a :: rest => execute_event now a.1 a.2 ++ servedOutputs now rest

/-- Whether every key of the table occurs at most once (the dict-shape
invariant of `running_processes`). -/
def keysNodup (table : RegTable) : Prop :=
  (table.map Prod.fst).Nodup

/-- A fixed sample worker handle for concrete instantiations. -/
def sampleWorker : RunningProcess := { process := 7, queueId := 3 }

/-- A fixed sample supervisor environment for concrete instantiations:
one worker, a channel that immediately delivers the done marker, worker
dead by cleanup time, no concurrent removal during a stop grace sleep. -/
def sampleEnv : SupEnv :=
  { worker := sampleWorker
    obs := [PollObs.msg StudioServerEvent.done]
    aliveAtEnd := false
    removedDuringGrace := false
    now := 1700000000000 }

/-- A supervisor environment whose channel stays silent for the whole
inactivity budget of the given event: every poll finds it empty with the
worker alive. -/
def silentEnv (event : StudioClientEvent) : SupEnv :=
  { worker := sampleWorker
    obs := List.replicate (timeoutFor event * 10) (PollObs.empty true)
    aliveAtEnd := false
    removedDuringGrace := false
    now := 1700000000000 }

/-! ## Shared lemmas -/

theorem endsWithDone_concat (l : List StudioServerEvent) :
    endsWithDone (l ++ [StudioServerEvent.done]) = true := by
  simp [endsWithDone, List.getLast?_concat, StudioServerEvent.isDone]

theorem endsWithDone_cons (m : StudioServerEvent)
    (l : List StudioServerEvent) (h : endsWithDone l = true) :
    endsWithDone (m :: l) = true := by
  cases l with
  | nil => simp [endsWithDone] at h
  | cons a l' =>
    simp only [endsWithDone, List.getLast?_cons_cons] at h ⊢
    exact h

theorem regLookup_regErase (table : RegTable) (tid : String) :
    regLookup (regErase table tid) tid = none := by
  have h : List.find? (fun p => p.1 == tid)
      (List.filter (fun p => p.1 != tid) table) = none := by
    rw [List.find?_eq_none]
    intro x hx
    have hpx := List.of_mem_filter hx
    simpa using hpx
  simp [regLookup, regErase, h]

theorem execute_event_endsWithDone (now : Int) (event : StudioClientEvent)
    (collab : CollabOutcome) :
    endsWithDone (execute_event now event collab) = true := by
  unfold execute_event
  exact endsWithDone_cons _ _ (endsWithDone_concat _)

theorem pollLoop_silent_timeout (budget : Nat) :
    ∀ (k s : Nat), budget * 10 = s + k →
    pollLoop budget s (List.replicate k (PollObs.empty true))
      = ([], LoopExit.timeout) := by
  intro k
  induction k with
  | zero =>
    intro s h
    show pollLoop budget s [] = ([], LoopExit.timeout)
    rw [pollLoop, if_pos (by omega)]
  | succ n ih =>
    intro s h
    rw [List.replicate_succ, pollLoop, if_neg (by omega), if_neg (by simp)]
    exact ih (s + 1) (by omega)

theorem pollLoop_doneExit_endsWithDone (budget : Nat) :
    ∀ (obs : List PollObs) (s : Nat),
    (pollLoop budget s obs).2 = LoopExit.doneExit →
    endsWithDone (pollLoop budget s obs).1 = true := by
  intro obs
  induction obs with
  | nil =>
    intro s h
    rw [pollLoop] at h
    by_cases hb : budget * 10 ≤ s
    · rw [if_pos hb] at h; exact absurd h (by simp)
    · rw [if_neg hb] at h; exact absurd h (by simp)
  | cons o rest ih =>
    intro s h
    cases o with
    | msg m =>
      rw [pollLoop] at h ⊢
      by_cases hb : budget * 10 ≤ s
      · rw [if_pos hb] at h; exact absurd h (by simp)
      · rw [if_neg hb] at h ⊢
        by_cases hm : m.isDone = true
        · rw [if_pos hm]
          simp [endsWithDone, hm]
        · rw [if_neg hm] at h ⊢
          dsimp only at h ⊢
          exact endsWithDone_cons _ _ (ih 0 h)
    | empty alive =>
      rw [pollLoop] at h ⊢
      by_cases hb : budget * 10 ≤ s
      · rw [if_pos hb] at h; exact absurd h (by simp)
      · rw [if_neg hb] at h ⊢
        by_cases hg : (decide (10 < budget) && !alive) = true
        · rw [if_pos hg] at h; exact absurd h (by simp)
        · rw [if_neg hg] at h ⊢
          exact ih (s + 1) h

theorem stop_process_spec (table : RegTable) (tid : String) (g : Bool)
    (h : (regLookup table tid).isSome = true) :
    (stop_process table tid g).sentinel = StudioServerEvent.done
    ∧ regLookup (stop_process table tid g).table tid = none
    ∧ ((stop_process table tid g).killed = true ∨ g = true)
    ∧ (g = false → (stop_process table tid g).killed = true) := by
  cases g with
  | false =>
    have hrw : stop_process table tid false =
        { sentinel := StudioServerEvent.done
          table := regErase table tid
          killed := true } := by
      unfold stop_process
      simp [h]
    rw [hrw]
    exact ⟨rfl, regLookup_regErase _ _, Or.inl rfl, fun _ => rfl⟩
  | true =>
    have hrw : stop_process table tid true =
        { sentinel := StudioServerEvent.done
          table := regErase table tid
          killed := false } := by
      unfold stop_process
      simp [regLookup_regErase]
    rw [hrw]
    exact ⟨rfl, regLookup_regErase _ _, Or.inr rfl,
      fun hf => absurd hf (by simp)⟩

theorem regLookup_eq_none_not_mem (table : RegTable) (t : String)
    (h : regLookup table t = none) : t ∉ table.map Prod.fst := by
  intro hmem
  obtain ⟨x, hx, hfst⟩ := List.mem_map.mp hmem
  unfold regLookup at h
  have hfind := Option.map_eq_none.mp h
  have := List.find?_eq_none.mp hfind x hx
  exact this (by simp [hfst])

theorem keysNodup_regErase (table : RegTable) (tid : String)
    (h : keysNodup table) : keysNodup (regErase table tid) :=
  List.Nodup.sublist
    (List.Sublist.map Prod.fst (List.filter_sublist table)) h

theorem keysNodup_registerProcess (table : RegTable) (tid : Option String)
    (w : RunningProcess) (h : keysNodup table) :
    keysNodup (registerProcess table tid w) := by
  cases tid with
  | none => exact h
  | some t =>
    unfold registerProcess
    dsimp only
    by_cases hc : (t != "" && (regLookup table t).isNone) = true
    · rw [if_pos hc]
      have hnone : regLookup table t = none :=
        Option.isNone_iff_eq_none.mp (Bool.and_elim_right hc)
      have hnotmem := regLookup_eq_none_not_mem table t hnone
      unfold keysNodup at h ⊢
      rw [List.map_append]
      refine List.Nodup.append h (List.nodup_singleton t) ?_
      simpa [List.disjoint_singleton] using hnotmem
    · rw [if_neg hc]; exact h

theorem keysNodup_cleanupRecord (table : RegTable) (tid : Option String)
    (h : keysNodup table) : keysNodup (cleanupRecord table tid) := by
  cases tid with
  | none => exact h
  | some t =>
    unfold cleanupRecord
    dsimp only
    by_cases hc : (t != "" && (regLookup table t).isSome) = true
    · rw [if_pos hc]; exact keysNodup_regErase table t h
    · rw [if_neg hc]; exact h

theorem keysNodup_stop_process (table : RegTable) (tid : String)
    (g : Bool) (h : keysNodup table) :
    keysNodup (stop_process table tid g).table := by
  unfold stop_process
  have h1 : keysNodup (if g then regErase table tid else table) := by
    cases g
    · simpa using h
    · simpa using keysNodup_regErase table tid h
  by_cases hc : (regLookup (if g then regErase table tid else table)
      tid).isSome = true
  · rw [if_pos hc]
    exact keysNodup_regErase _ tid h1
  · rw [if_neg hc]
    exact h1

theorem regLookup_cleanupRecord (table : RegTable) (t : String)
    (ht : t ≠ "") : regLookup (cleanupRecord table (some t)) t = none := by
  unfold cleanupRecord
  dsimp only
  have hbne : (t != "") = true := by simpa using ht
  by_cases hc : (regLookup table t).isSome = true
  · rw [if_pos (by simp [hbne, hc])]
    exact regLookup_regErase _ _
  · have hfalse : (regLookup table t).isSome = false := by
      simpa using hc
    rw [if_neg (by simp [hfalse])]
    exact Option.not_isSome_iff_eq_none.mp hc

theorem regLookup_stop_process (table : RegTable) (tid : String)
    (g : Bool) :
    regLookup (stop_process table tid g).table tid = none := by
  unfold stop_process
  cases g with
  | false =>
    by_cases hx : (regLookup table tid).isSome = true
    · simp [hx, regLookup_regErase]
    · simp [hx]
      exact Option.not_isSome_iff_eq_none.mp (by simpa using hx)
  | true =>
    simp [regLookup_regErase]

theorem endsWithDone_append_singleton (l : List StudioServerEvent)
    (e : StudioServerEvent) : endsWithDone (l ++ [e]) = e.isDone := by
  simp [endsWithDone, List.getLast?_concat]

theorem endsWithDone_eq_false_of_no_done :
    ∀ l : List StudioServerEvent,
    (∀ m ∈ l, m.isDone = false) → endsWithDone l = false := by
  intro l
  induction l with
  | nil => intro _; rfl
  | cons a t ih =>
    intro h
    cases t with
    | nil => simpa [endsWithDone] using h a (by simp)
    | cons b t2 =>
      have h2 := ih (fun m hm => h m (List.mem_cons_of_mem a hm))
      simp only [endsWithDone, List.getLast?_cons_cons] at h2 ⊢
      exact h2

theorem pollLoop_no_done_of_ne_doneExit (budget : Nat) :
    ∀ (obs : List PollObs) (s : Nat),
    (pollLoop budget s obs).2 ≠ LoopExit.doneExit →
    ∀ m ∈ (pollLoop budget s obs).1, m.isDone = false := by
  intro obs
  induction obs with
  | nil =>
    intro s _ m hm
    rw [pollLoop] at hm
    by_cases hb : budget * 10 ≤ s
    · rw [if_pos hb] at hm; simp at hm
    · rw [if_neg hb] at hm; simp at hm
  | cons o rest ih =>
    intro s h m hm
    cases o with
    | msg m2 =>
      rw [pollLoop] at h hm
      by_cases hb : budget * 10 ≤ s
      · rw [if_pos hb] at hm; simp at hm
      · rw [if_neg hb] at h hm
        by_cases hd : m2.isDone = true
        · rw [if_pos hd] at h
          exact absurd rfl h
        · rw [if_neg hd] at h hm
          dsimp only at h hm
          rcases List.mem_cons.mp hm with hm1 | hm2
          · rw [hm1]
            exact Bool.eq_false_iff.mpr hd
          · exact ih 0 h m hm2
    | empty alive =>
      rw [pollLoop] at h hm
      by_cases hb : budget * 10 ≤ s
      · rw [if_pos hb] at hm; simp at hm
      · rw [if_neg hb] at h hm
        by_cases hg : (decide (10 < budget) && !alive) = true
        · rw [if_pos hg] at hm; simp at hm
        · rw [if_neg hg] at h hm
          exact ih (s + 1) h m hm

theorem supervisor_nonstop_stream (table : RegTable)
    (event : StudioClientEvent) (env : SupEnv)
    (h : event.isStopRequest = false) :
    (execute_event_on_a_subprocess table event env).stream
      = (pollLoop (timeoutFor event) 0 env.obs).1
        ++ (match (pollLoop (timeoutFor event) 0 env.obs).2 with
            | LoopExit.doneExit => (([] : List StudioServerEvent), false)
            | LoopExit.timeout =>
              ([StudioServerEvent.error ("Execution timed out")], true)
            | LoopExit.crashed =>
              ([StudioServerEvent.error
                  ("Unexpected error: Exception('Runtime crashed')")],
                false)
            | LoopExit.obsCutOff => ([], false)).1 := by
  cases event with
  | stopExecution p => simp [StudioClientEvent.isStopRequest] at h
  | stopEvaluationExecution p =>
    simp [StudioClientEvent.isStopRequest] at h
  | stopOptimizationExecution p =>
    simp [StudioClientEvent.isStopRequest] at h
  | isAlive => rfl
  | executeComponent p => rfl
  | executeFlow p => rfl
  | executeEvaluation p => rfl
  | executeOptimization p => rfl
  | unknownEvent tag => rfl

/-! ## Claim theorems -/

/-- C10: `component_error_event` ignores its `trace_id` argument: the
returned component-state-change carries `component_id = node_id` and an
execution state with status `error`, the error message, a `finished_at`
timestamp, and no `trace_id` — while `start_component_event` embeds the
`trace_id` it is given into the execution state. -/
theorem c10_component_error_event_ignores_trace_id :
    (∀ (now : Int) (t1 t2 nid err : String),
      component_error_event now t1 nid err
        = component_error_event now t2 nid err)
    ∧ (∀ (now : Int) (t nid err : String),
      component_error_event now t nid err
        = StudioServerEvent.componentStateChange
            { component_id := nid
              execution_state :=
                { status := ExecutionStatus.error
                  trace_id := none
                  timestamps := some
                    { started_at := none
                      finished_at := some now
                      stopped_at := none }
                  inputs := none
                  outputs := none
                  error := some err } })
    ∧ (∀ (now : Int) (nid t : String)
        (inputs : Option (List (String × String))),
      (eventExecutionState (start_component_event now nid t inputs)).map
        (fun s => s.trace_id) = some (some t)) := by
  refine ⟨fun now t1 t2 nid err => rfl, fun now t nid err => rfl, ?_⟩
  intro now nid t inputs
  unfold start_component_event
  cases h : optListTruthy inputs <;> simp [h, eventExecutionState]

/-- C8: the orchestrator's signal handler arms a 3-second
forceful-exit timer and then attempts graceful exit via `sys.exit(0)`;
but the `finally` clause cancels that timer while the `SystemExit` is
still unwinding, i.e. before graceful exit has completed, so once the
handler's own trace has run the escalation timer is no longer armed and
a stalled graceful exit is never escalated. -/
theorem c8_shutdown_timer_cancelled_during_unwind :
    shutdown_handler
      = [ShutdownAction.armTimer 3, ShutdownAction.raiseSystemExit 0,
         ShutdownAction.cancelTimer]
    ∧ timerArmedAfter shutdown_handler = false :=
  ⟨rfl, rfl⟩

/-- C2 counterexample: for the unrecognised type tag `bogus`, the
worker-level stream is not of the form `[error, done]` — an initial
debug event precedes the error. -/
theorem c2_counterexample :
    ¬ ∃ m, execute_event 0 (StudioClientEvent.unknownEvent ("bogus"))
        (CollabOutcome.ok [])
      = [StudioServerEvent.error m, StudioServerEvent.done] := by
  rintro ⟨m, h⟩
  rw [show execute_event 0 (StudioClientEvent.unknownEvent ("bogus"))
        (CollabOutcome.ok [])
      = [StudioServerEvent.debug ("server starting execution"),
         StudioServerEvent.error ("Unknown event type from client: bogus"),
         StudioServerEvent.done] from rfl] at h
  simp at h

/-- C2 amended: for every client event whose type tag is unrecognized,
the stream contains exactly one debug event, then exactly one `error`
event naming the tag, then `done`, and no other event. -/
theorem c2_unknown_tag_stream (now : Int) (tag : String)
    (collab : CollabOutcome) (h : tag ∉ knownClientEventTypes) :
    execute_event now (StudioClientEvent.unknownEvent tag) collab
      = [StudioServerEvent.debug ("server starting execution"),
         StudioServerEvent.error
           ("Unknown event type from client: " ++ tag),
         StudioServerEvent.done] := rfl

/-- Witness for C2 amended at the concrete tag `bogus`. -/
theorem c2_unknown_tag_stream_witness :
    ("bogus" ∉ knownClientEventTypes)
    ∧ execute_event 0 (StudioClientEvent.unknownEvent ("bogus"))
        (CollabOutcome.ok [])
      = [StudioServerEvent.debug ("server starting execution"),
         StudioServerEvent.error
           ("Unknown event type from client: " ++ "bogus"),
         StudioServerEvent.done] :=
  ⟨by decide,
   c2_unknown_tag_stream 0 ("bogus") (CollabOutcome.ok []) (by decide)⟩

/-- C3 counterexample: a `stop_execution` whose id has no record yields
an empty caller stream — the operation-specific branch emits nothing,
but the stream is not terminated by `done` either. -/
theorem c3_counterexample :
    (execute_event_on_a_subprocess []
        (StudioClientEvent.stopExecution { trace_id := "t1" })
        sampleEnv).stream = []
    ∧ endsWithDone (execute_event_on_a_subprocess []
        (StudioClientEvent.stopExecution { trace_id := "t1" })
        sampleEnv).stream = false :=
  ⟨rfl, rfl⟩

/-- C3 amended: a `stop_execution` whose execution id has no
running-execution record emits no event at all (the stop is an
idempotent no-op leaving the registry untouched), and the caller's
stream for it is empty — in particular it is not terminated by `done`. -/
theorem c3_unknown_stop_noop (table : RegTable) (p : StopExecutionPayload)
    (env : SupEnv) (h : regLookup table p.trace_id = none) :
    (execute_event_on_a_subprocess table
        (StudioClientEvent.stopExecution p) env).stream = []
    ∧ (execute_event_on_a_subprocess table
        (StudioClientEvent.stopExecution p) env).table = table := by
  simp [execute_event_on_a_subprocess, h]

/-- Witness for C3 amended: empty registry, id `t1`. -/
theorem c3_unknown_stop_noop_witness :
    (regLookup [] "t1" = none)
    ∧ ((execute_event_on_a_subprocess []
          (StudioClientEvent.stopExecution { trace_id := "t1" })
          sampleEnv).stream = []
      ∧ (execute_event_on_a_subprocess []
          (StudioClientEvent.stopExecution { trace_id := "t1" })
          sampleEnv).table = []) :=
  ⟨rfl, c3_unknown_stop_noop [] { trace_id := "t1" } sampleEnv rfl⟩

/-- C4 counterexample: an inbound channel carrying two assignments
before the sentinel makes the worker runtime serve both — it is not
limited to a single assignment. -/
theorem c4_counterexample :
    ¬ ((event_worker 0
        [some (StudioClientEvent.isAlive, CollabOutcome.ok []),
         some (StudioClientEvent.isAlive, CollabOutcome.ok []),
         none]).2 ≤ 1) := by
  decide

/-- C4 amended: the worker runtime loops on its inbound channel,
serving every assignment it receives — relaying each assignment's whole
event sequence to its outbound channel — until the `None` sentinel
arrives, at which point it exits; single-use workers are a policy of the
pool that owns the worker, not of the runtime itself. -/
theorem c4_worker_serves_until_sentinel (now : Int)
    (assigns : List (StudioClientEvent × CollabOutcome))
    (rest : WorkerInbox) :
    event_worker now (assigns.map some ++ none :: rest)
      = (servedOutputs now assigns, assigns.length) := by
  induction assigns with
  | nil => rfl
  | cons a t ih =>
    obtain ⟨e, c⟩ := a
    simp [event_worker, servedOutputs, ih]

/-- C1 counterexample: a node-scoped `stop_execution` for a registered
id yields a caller stream whose last (and only) item is the synthesized
interrupted component error — the stream terminates without `done`. -/
theorem c1_counterexample :
    (execute_event_on_a_subprocess [("t1", sampleWorker)]
        (StudioClientEvent.stopExecution
          { trace_id := "t1", node_id := some "n1" })
        sampleEnv).stream
      = [component_error_event sampleEnv.now "t1" "n1" ("Interrupted")]
    ∧ endsWithDone (execute_event_on_a_subprocess [("t1", sampleWorker)]
        (StudioClientEvent.stopExecution
          { trace_id := "t1", node_id := some "n1" })
        sampleEnv).stream = false :=
  ⟨rfl, rfl⟩

/-- C1 amended: the worker-level stream produced by `execute_event`
unconditionally ends with the terminal `done` marker on every path.  The
caller-level stream of the supervisor ends with `done` exactly when (iff)
the poll loop exits by relaying the worker's `done` marker before the
inactivity budget elapses (the normal completion path, including
executions whose failure was converted into an `error` by the worker);
in particular the timeout and crash exits terminate the caller's stream
without a trailing `done`, and all three stop-request branches — whether
the id is known or unknown — terminate the caller's stream without a
trailing `done`. -/
theorem c1_done_termination :
    (∀ (now : Int) (event : StudioClientEvent) (collab : CollabOutcome),
      endsWithDone (execute_event now event collab) = true)
    ∧ (∀ (table : RegTable) (event : StudioClientEvent) (env : SupEnv),
      event.isStopRequest = false →
      (endsWithDone
          (execute_event_on_a_subprocess table event env).stream = true
        ↔ (pollLoop (timeoutFor event) 0 env.obs).2 = LoopExit.doneExit))
    ∧ (∀ (table : RegTable) (event : StudioClientEvent) (env : SupEnv),
      event.isStopRequest = false →
      ((pollLoop (timeoutFor event) 0 env.obs).2 = LoopExit.timeout
        ∨ (pollLoop (timeoutFor event) 0 env.obs).2 = LoopExit.crashed) →
      endsWithDone
        (execute_event_on_a_subprocess table event env).stream = false)
    ∧ (∀ (table : RegTable) (env : SupEnv) (p : StopExecutionPayload),
      endsWithDone (execute_event_on_a_subprocess table
        (StudioClientEvent.stopExecution p) env).stream = false)
    ∧ (∀ (table : RegTable) (env : SupEnv)
        (p : StopEvaluationExecutionPayload),
      endsWithDone (execute_event_on_a_subprocess table
        (StudioClientEvent.stopEvaluationExecution p) env).stream = false)
    ∧ (∀ (table : RegTable) (env : SupEnv)
        (p : StopOptimizationExecutionPayload),
      endsWithDone (execute_event_on_a_subprocess table
        (StudioClientEvent.stopOptimizationExecution p) env).stream
        = false) := by
  have hiff : ∀ (table : RegTable) (event : StudioClientEvent)
      (env : SupEnv), event.isStopRequest = false →
      (endsWithDone
          (execute_event_on_a_subprocess table event env).stream = true
        ↔ (pollLoop (timeoutFor event) 0 env.obs).2
            = LoopExit.doneExit) := by
    intro table event env hstop
    rw [supervisor_nonstop_stream table event env hstop]
    cases hexit : (pollLoop (timeoutFor event) 0 env.obs).2 with
    | doneExit =>
      have hdone := pollLoop_doneExit_endsWithDone
        (timeoutFor event) env.obs 0 hexit
      simp only [List.append_nil]
      exact iff_of_true hdone trivial
    | timeout =>
      refine iff_of_false ?_ (by simp)
      rw [endsWithDone_append_singleton]
      simp [StudioServerEvent.isDone]
    | crashed =>
      refine iff_of_false ?_ (by simp)
      rw [endsWithDone_append_singleton]
      simp [StudioServerEvent.isDone]
    | obsCutOff =>
      refine iff_of_false ?_ (by simp)
      have hnd := pollLoop_no_done_of_ne_doneExit (timeoutFor event)
        env.obs 0 (by rw [hexit]; simp)
      simp only [List.append_nil]
      simp [endsWithDone_eq_false_of_no_done _ hnd]
  refine ⟨execute_event_endsWithDone, hiff, ?_, ?_, ?_, ?_⟩
  · intro table event env hstop hex
    cases hb : endsWithDone
        (execute_event_on_a_subprocess table event env).stream
    · rfl
    · exfalso
      have hde := (hiff table event env hstop).mp hb
      rcases hex with hx | hx <;> rw [hx] at hde <;> simp at hde
  · intro table env p
    by_cases hc : (regLookup table p.trace_id).isSome = true
    · cases hn : p.node_id with
      | some nid =>
        simp [execute_event_on_a_subprocess, hc, hn, endsWithDone,
          component_error_event, StudioServerEvent.isDone]
      | none =>
        simp [execute_event_on_a_subprocess, hc, hn, endsWithDone,
          StudioServerEvent.isDone]
    · simp [execute_event_on_a_subprocess, hc, endsWithDone]
  · intro table env p
    by_cases hc : (regLookup table p.run_id).isSome = true
    · simp [execute_event_on_a_subprocess, hc, endsWithDone,
        error_evaluation_event, StudioServerEvent.isDone]
    · simp [execute_event_on_a_subprocess, hc, endsWithDone]
  · intro table env p
    by_cases hc : (regLookup table p.run_id).isSome = true
    · simp [execute_event_on_a_subprocess, hc, endsWithDone,
        error_optimization_event, StudioServerEvent.isDone]
    · simp [execute_event_on_a_subprocess, hc, endsWithDone]

set_option maxRecDepth 100000 in
/-- Witness for C1 amended: a liveness check whose channel immediately
delivers the done marker ends the caller's stream with `done`; the same
event left silent for its whole budget (timeout exit) ends without
`done`; and a stop request's stream ends without `done`. -/
theorem c1_done_termination_witness :
    (StudioClientEvent.isAlive.isStopRequest = false)
    ∧ endsWithDone (execute_event_on_a_subprocess []
        StudioClientEvent.isAlive sampleEnv).stream = true
    ∧ endsWithDone (execute_event_on_a_subprocess []
        StudioClientEvent.isAlive
        (silentEnv StudioClientEvent.isAlive)).stream = false
    ∧ endsWithDone (execute_event_on_a_subprocess []
        (StudioClientEvent.stopExecution { trace_id := "t9" })
        sampleEnv).stream = false :=
  ⟨rfl,
   (c1_done_termination.2.1 [] StudioClientEvent.isAlive sampleEnv
     rfl).mpr rfl,
   c1_done_termination.2.2.1 [] StudioClientEvent.isAlive
     (silentEnv StudioClientEvent.isAlive) rfl (Or.inl (by rfl)),
   c1_done_termination.2.2.2.1 [] sampleEnv { trace_id := "t9" }⟩

/-- C5: for every stop request of any of the three kinds whose id has a
running-execution record, the handler invokes the stop protocol: the
`Done()` shutdown sentinel is put on the located record's channel, a
200 ms grace interval elapses, the worker is force-terminated exactly
when the record still exists after the grace interval (in particular
always when no concurrent cleanup removed it), and afterwards the record
is absent — the worker having been either force-terminated or already
cleaned up within the grace window. -/
theorem c5_stop_known_id_protocol (table : RegTable) (env : SupEnv) :
    stopGraceMs = 200
    ∧ (∀ (tid : String) (g : Bool),
        (stop_process table tid g).sentinel = StudioServerEvent.done)
    ∧ (∀ p : StopExecutionPayload,
        (regLookup table p.trace_id).isSome = true →
        (execute_event_on_a_subprocess table
            (StudioClientEvent.stopExecution p) env).sentinelSent = true
        ∧ regLookup (execute_event_on_a_subprocess table
            (StudioClientEvent.stopExecution p) env).table p.trace_id
            = none
        ∧ ((execute_event_on_a_subprocess table
              (StudioClientEvent.stopExecution p) env).workerKilled = true
            ∨ env.removedDuringGrace = true)
        ∧ (env.removedDuringGrace = false →
            (execute_event_on_a_subprocess table
              (StudioClientEvent.stopExecution p) env).workerKilled
              = true))
    ∧ (∀ p : StopEvaluationExecutionPayload,
        (regLookup table p.run_id).isSome = true →
        (execute_event_on_a_subprocess table
            (StudioClientEvent.stopEvaluationExecution p)
            env).sentinelSent = true
        ∧ regLookup (execute_event_on_a_subprocess table
            (StudioClientEvent.stopEvaluationExecution p) env).table
            p.run_id = none
        ∧ ((execute_event_on_a_subprocess table
              (StudioClientEvent.stopEvaluationExecution p)
              env).workerKilled = true
            ∨ env.removedDuringGrace = true)
        ∧ (env.removedDuringGrace = false →
            (execute_event_on_a_subprocess table
              (StudioClientEvent.stopEvaluationExecution p)
              env).workerKilled = true))
    ∧ (∀ p : StopOptimizationExecutionPayload,
        (regLookup table p.run_id).isSome = true →
        (execute_event_on_a_subprocess table
            (StudioClientEvent.stopOptimizationExecution p)
            env).sentinelSent = true
        ∧ regLookup (execute_event_on_a_subprocess table
            (StudioClientEvent.stopOptimizationExecution p) env).table
            p.run_id = none
        ∧ ((execute_event_on_a_subprocess table
              (StudioClientEvent.stopOptimizationExecution p)
              env).workerKilled = true
            ∨ env.removedDuringGrace = true)
        ∧ (env.removedDuringGrace = false →
            (execute_event_on_a_subprocess table
              (StudioClientEvent.stopOptimizationExecution p)
              env).workerKilled = true)) := by
  refine ⟨rfl, ?_, ?_, ?_, ?_⟩
  · intro tid g
    unfold stop_process
    by_cases hc : (regLookup (if g then regErase table tid else table)
        tid).isSome = true <;> simp [hc]
  · intro p hp
    have hs := stop_process_spec table p.trace_id env.removedDuringGrace hp
    simp only [execute_event_on_a_subprocess, hp, if_true]
    exact ⟨trivial, hs.2.1, hs.2.2.1, hs.2.2.2⟩
  · intro p hp
    have hs := stop_process_spec table p.run_id env.removedDuringGrace hp
    simp only [execute_event_on_a_subprocess, hp, if_true]
    exact ⟨trivial, hs.2.1, hs.2.2.1, hs.2.2.2⟩
  · intro p hp
    have hs := stop_process_spec table p.run_id env.removedDuringGrace hp
    simp only [execute_event_on_a_subprocess, hp, if_true]
    exact ⟨trivial, hs.2.1, hs.2.2.1, hs.2.2.2⟩

/-- Witness for C5 at a one-record registry and a stop request for that
record's id, with no concurrent cleanup during the grace interval. -/
theorem c5_stop_known_id_protocol_witness :
    ((regLookup [("t1", sampleWorker)] "t1").isSome = true)
    ∧ ((execute_event_on_a_subprocess [("t1", sampleWorker)]
          (StudioClientEvent.stopExecution { trace_id := "t1" })
          sampleEnv).sentinelSent = true
      ∧ regLookup (execute_event_on_a_subprocess [("t1", sampleWorker)]
          (StudioClientEvent.stopExecution { trace_id := "t1" })
          sampleEnv).table "t1" = none
      ∧ ((execute_event_on_a_subprocess [("t1", sampleWorker)]
            (StudioClientEvent.stopExecution { trace_id := "t1" })
            sampleEnv).workerKilled = true
          ∨ sampleEnv.removedDuringGrace = true)
      ∧ (sampleEnv.removedDuringGrace = false →
          (execute_event_on_a_subprocess [("t1", sampleWorker)]
            (StudioClientEvent.stopExecution { trace_id := "t1" })
            sampleEnv).workerKilled = true)) :=
  ⟨rfl,
   (c5_stop_known_id_protocol [("t1", sampleWorker)] sampleEnv).2.2.1
     { trace_id := "t1" } rfl⟩

/-- C6: the inactivity budget is 120 seconds by default and 120 minutes
for `execute_optimization`; a non-stop execution whose channel stays
silent for the whole budget (the worker staying alive, so the crash
escalation never fires) produces exactly the timeout `error` event and
has its worker terminated; and the inactivity timer resets to zero on
every relayed message, whatever its kind, not just on state changes. -/
theorem c6_inactivity_timeout (table : RegTable)
    (event : StudioClientEvent) (env : SupEnv) :
    (∀ ev : StudioClientEvent,
      timeoutFor ev = if ev.isExecuteOptimization then 120 * 60 else 120)
    ∧ (event.isStopRequest = false →
      env.obs = List.replicate (timeoutFor event * 10) (PollObs.empty true) →
      (execute_event_on_a_subprocess table event env).stream
          = [StudioServerEvent.error ("Execution timed out")]
        ∧ (execute_event_on_a_subprocess table event env).workerKilled
          = true)
    ∧ (∀ (budget s : Nat) (m : StudioServerEvent) (rest : List PollObs),
      s < budget * 10 → m.isDone = false →
      pollLoop budget s (PollObs.msg m :: rest)
        = (m :: (pollLoop budget 0 rest).1, (pollLoop budget 0 rest).2)) := by
  refine ⟨fun ev => by cases ev <;> rfl, ?_, ?_⟩
  · intro hstop hobs
    have hpoll : pollLoop (timeoutFor event) 0 env.obs
        = ([], LoopExit.timeout) := by
      rw [hobs]
      exact pollLoop_silent_timeout (timeoutFor event)
        (timeoutFor event * 10) 0 (by omega)
    cases event with
    | stopExecution p => simp [StudioClientEvent.isStopRequest] at hstop
    | stopEvaluationExecution p =>
      simp [StudioClientEvent.isStopRequest] at hstop
    | stopOptimizationExecution p =>
      simp [StudioClientEvent.isStopRequest] at hstop
    | isAlive => simp [execute_event_on_a_subprocess, hpoll]
    | executeComponent p => simp [execute_event_on_a_subprocess, hpoll]
    | executeFlow p => simp [execute_event_on_a_subprocess, hpoll]
    | executeEvaluation p => simp [execute_event_on_a_subprocess, hpoll]
    | executeOptimization p => simp [execute_event_on_a_subprocess, hpoll]
    | unknownEvent tag => simp [execute_event_on_a_subprocess, hpoll]
  · intro budget s m rest hs hm
    rw [pollLoop, if_neg (by omega), if_neg (by simp [hm])]

/-- Witness for C6: a liveness check left silent for its whole 120 s
budget times out with the worker killed, and a debug message at tick 0
resets the poll-loop timer. -/
theorem c6_inactivity_timeout_witness :
    (StudioClientEvent.isAlive.isStopRequest = false)
    ∧ ((silentEnv StudioClientEvent.isAlive).obs
        = List.replicate (timeoutFor StudioClientEvent.isAlive * 10)
            (PollObs.empty true))
    ∧ ((execute_event_on_a_subprocess [] StudioClientEvent.isAlive
          (silentEnv StudioClientEvent.isAlive)).stream
        = [StudioServerEvent.error ("Execution timed out")]
      ∧ (execute_event_on_a_subprocess [] StudioClientEvent.isAlive
          (silentEnv StudioClientEvent.isAlive)).workerKilled = true)
    ∧ pollLoop 120 0 [PollObs.msg (StudioServerEvent.debug ("d"))]
        = (StudioServerEvent.debug ("d") :: (pollLoop 120 0 []).1,
           (pollLoop 120 0 []).2) :=
  ⟨rfl, rfl,
   (c6_inactivity_timeout [] StudioClientEvent.isAlive
     (silentEnv StudioClientEvent.isAlive)).2.1 rfl rfl,
   (c6_inactivity_timeout [] StudioClientEvent.isAlive
     (silentEnv StudioClientEvent.isAlive)).2.2 120 0
     (StudioServerEvent.debug ("d")) [] (by omega) rfl⟩

/-- C7: the running-processes table keeps at most one live record per
execution identifier: registration never overwrites an existing record
for an id (it inserts only when the id is truthy and absent), every exit
path of the supervisor leaves no record for the event's id behind, and
the unique-key shape of the table is preserved by every supervisor
run. -/
theorem c7_registry_invariants (table : RegTable)
    (event : StudioClientEvent) (env : SupEnv) :
    (∀ (t : String) (rec : RunningProcess),
      (regLookup table t).isSome = true →
      registerProcess table (some t) rec = table)
    ∧ (∀ t : String, get_trace_id event = some t → t ≠ "" →
      regLookup (execute_event_on_a_subprocess table event env).table t
        = none)
    ∧ (keysNodup table →
      keysNodup (execute_event_on_a_subprocess table event env).table) := by
  refine ⟨?_, ?_, ?_⟩
  · intro t rec h
    unfold registerProcess
    dsimp only
    cases hx : regLookup table t with
    | none => rw [hx] at h; simp at h
    | some w => simp [hx]
  · intro t ht hne
    cases event with
    | isAlive => simp [get_trace_id] at ht
    | unknownEvent tag => simp [get_trace_id] at ht
    | stopExecution p =>
      simp only [get_trace_id] at ht
      injection ht with hpt
      subst hpt
      by_cases hc : (regLookup table p.trace_id).isSome = true
      · simp only [execute_event_on_a_subprocess]
        rw [if_pos hc]
        exact regLookup_stop_process table p.trace_id _
      · simp only [execute_event_on_a_subprocess]
        rw [if_neg hc]
        exact Option.not_isSome_iff_eq_none.mp hc
    | stopEvaluationExecution p =>
      simp only [get_trace_id] at ht
      injection ht with hpt
      subst hpt
      by_cases hc : (regLookup table p.run_id).isSome = true
      · simp only [execute_event_on_a_subprocess]
        rw [if_pos hc]
        exact regLookup_stop_process table p.run_id _
      · simp only [execute_event_on_a_subprocess]
        rw [if_neg hc]
        exact Option.not_isSome_iff_eq_none.mp hc
    | stopOptimizationExecution p =>
      simp only [get_trace_id] at ht
      injection ht with hpt
      subst hpt
      by_cases hc : (regLookup table p.run_id).isSome = true
      · simp only [execute_event_on_a_subprocess]
        rw [if_pos hc]
        exact regLookup_stop_process table p.run_id _
      · simp only [execute_event_on_a_subprocess]
        rw [if_neg hc]
        exact Option.not_isSome_iff_eq_none.mp hc
    | executeComponent p =>
      simp only [get_trace_id] at ht
      injection ht with hpt
      subst hpt
      simp only [execute_event_on_a_subprocess, get_trace_id]
      exact regLookup_cleanupRecord _ _ hne
    | executeFlow p =>
      simp only [get_trace_id] at ht
      injection ht with hpt
      subst hpt
      simp only [execute_event_on_a_subprocess, get_trace_id]
      exact regLookup_cleanupRecord _ _ hne
    | executeEvaluation p =>
      simp only [get_trace_id] at ht
      injection ht with hpt
      subst hpt
      simp only [execute_event_on_a_subprocess, get_trace_id]
      exact regLookup_cleanupRecord _ _ hne
    | executeOptimization p =>
      simp only [get_trace_id] at ht
      injection ht with hpt
      subst hpt
      simp only [execute_event_on_a_subprocess, get_trace_id]
      exact regLookup_cleanupRecord _ _ hne
  · intro hnod
    cases event with
    | stopExecution p =>
      by_cases hc : (regLookup table p.trace_id).isSome = true
      · simp only [execute_event_on_a_subprocess]
        rw [if_pos hc]
        exact keysNodup_stop_process table p.trace_id _ hnod
      · simp only [execute_event_on_a_subprocess]
        rw [if_neg hc]
        exact hnod
    | stopEvaluationExecution p =>
      by_cases hc : (regLookup table p.run_id).isSome = true
      · simp only [execute_event_on_a_subprocess]
        rw [if_pos hc]
        exact keysNodup_stop_process table p.run_id _ hnod
      · simp only [execute_event_on_a_subprocess]
        rw [if_neg hc]
        exact hnod
    | stopOptimizationExecution p =>
      by_cases hc : (regLookup table p.run_id).isSome = true
      · simp only [execute_event_on_a_subprocess]
        rw [if_pos hc]
        exact keysNodup_stop_process table p.run_id _ hnod
      · simp only [execute_event_on_a_subprocess]
        rw [if_neg hc]
        exact hnod
    | isAlive =>
      simp only [execute_event_on_a_subprocess]
      exact keysNodup_cleanupRecord _ _ (keysNodup_registerProcess _ _ _ hnod)
    | unknownEvent tag =>
      simp only [execute_event_on_a_subprocess]
      exact keysNodup_cleanupRecord _ _ (keysNodup_registerProcess _ _ _ hnod)
    | executeComponent p =>
      simp only [execute_event_on_a_subprocess]
      exact keysNodup_cleanupRecord _ _ (keysNodup_registerProcess _ _ _ hnod)
    | executeFlow p =>
      simp only [execute_event_on_a_subprocess]
      exact keysNodup_cleanupRecord _ _ (keysNodup_registerProcess _ _ _ hnod)
    | executeEvaluation p =>
      simp only [execute_event_on_a_subprocess]
      exact keysNodup_cleanupRecord _ _ (keysNodup_registerProcess _ _ _ hnod)
    | executeOptimization p =>
      simp only [execute_event_on_a_subprocess]
      exact keysNodup_cleanupRecord _ _ (keysNodup_registerProcess _ _ _ hnod)

/-- Witness for C7: a one-record registry, a component execution reusing
the same id (registration leaves the table unchanged), and a supervisor
run that removes the id's record while preserving unique keys. -/
theorem c7_registry_invariants_witness :
    ((regLookup [("t1", sampleWorker)] "t1").isSome = true
      ∧ registerProcess [("t1", sampleWorker)] (some "t1") sampleWorker
        = [("t1", sampleWorker)])
    ∧ (get_trace_id (StudioClientEvent.executeComponent
        { trace_id := "t1", node_id := "n1" }) = some "t1"
      ∧ "t1" ≠ ""
      ∧ regLookup (execute_event_on_a_subprocess [("t1", sampleWorker)]
          (StudioClientEvent.executeComponent
            { trace_id := "t1", node_id := "n1" })
          sampleEnv).table "t1" = none)
    ∧ (keysNodup [("t1", sampleWorker)]
      ∧ keysNodup (execute_event_on_a_subprocess [("t1", sampleWorker)]
          (StudioClientEvent.executeComponent
            { trace_id := "t1", node_id := "n1" })
          sampleEnv).table) :=
  ⟨⟨rfl, (c7_registry_invariants [("t1", sampleWorker)]
      (StudioClientEvent.executeComponent
        { trace_id := "t1", node_id := "n1" }) sampleEnv).1
      "t1" sampleWorker rfl⟩,
   ⟨rfl, by decide,
    (c7_registry_invariants [("t1", sampleWorker)]
      (StudioClientEvent.executeComponent
        { trace_id := "t1", node_id := "n1" }) sampleEnv).2.1
      "t1" rfl (by decide)⟩,
   ⟨by simp [keysNodup],
    (c7_registry_invariants [("t1", sampleWorker)]
      (StudioClientEvent.executeComponent
        { trace_id := "t1", node_id := "n1" }) sampleEnv).2.2
      (by simp [keysNodup])⟩⟩

theorem execute_sync_loop_skip :
    ∀ (pre l : List StudioServerEvent),
    (∀ e ∈ pre, isTerminalStateChange e = false) →
    execute_sync_loop (pre ++ l) = execute_sync_loop l := by
  intro pre
  induction pre with
  | nil => intro l h; rfl
  | cons e rest ih =>
    intro l h
    have he := h e (List.mem_cons_self e rest)
    have hrest : ∀ x ∈ rest, isTerminalStateChange x = false :=
      fun x hx => h x (List.mem_cons_of_mem e hx)
    cases e with
    | executionStateChange st2 =>
      simp only [isTerminalStateChange, Bool.or_eq_false_iff,
        beq_eq_false_iff_ne, ne_eq] at he
      rw [List.cons_append, execute_sync_loop, if_neg he.1, if_neg he.2]
      exact ih l hrest
    | isAliveResponse =>
      rw [List.cons_append, execute_sync_loop]
      · exact ih l hrest
      · exact fun st hco => nomatch hco
    | componentStateChange p =>
      rw [List.cons_append, execute_sync_loop]
      · exact ih l hrest
      · exact fun st hco => nomatch hco
    | evaluationStateChange s =>
      rw [List.cons_append, execute_sync_loop]
      · exact ih l hrest
      · exact fun st hco => nomatch hco
    | optimizationStateChange s =>
      rw [List.cons_append, execute_sync_loop]
      · exact ih l hrest
      · exact fun st hco => nomatch hco
    | debug m =>
      rw [List.cons_append, execute_sync_loop]
      · exact ih l hrest
      · exact fun st hco => nomatch hco
    | error m =>
      rw [List.cons_append, execute_sync_loop]
      · exact ih l hrest
      · exact fun st hco => nomatch hco
    | done =>
      rw [List.cons_append, execute_sync_loop]
      · exact ih l hrest
      · exact fun st hco => nomatch hco

/-- C9: `execute_sync` drives the supervisor's stream for the event
without forwarding intermediate events, and: the first
execution-state-change reporting `success` produces the response with
the execution id, the success status and the result's designated
terminal `end` value; the first reporting `error` raises HTTP 500 with
the carried error message; and a stream that ends without either raises
the generic HTTP 500 ("completed without success or error status"). -/
theorem c9_execute_sync_behaviour :
    (∀ (table : RegTable) (event : StudioClientEvent) (env : SupEnv),
      execute_sync table event env
        = execute_sync_loop
            (execute_event_on_a_subprocess table event env).stream)
    ∧ (∀ (pre post : List StudioServerEvent)
        (st : WorkflowExecutionState),
      (∀ e ∈ pre, isTerminalStateChange e = false) →
      st.status = ExecutionStatus.success →
      execute_sync_loop
          (pre ++ StudioServerEvent.executionStateChange st :: post)
        = SyncResult.success st.trace_id (resultEnd st.result))
    ∧ (∀ (pre post : List StudioServerEvent)
        (st : WorkflowExecutionState),
      (∀ e ∈ pre, isTerminalStateChange e = false) →
      st.status = ExecutionStatus.error →
      execute_sync_loop
          (pre ++ StudioServerEvent.executionStateChange st :: post)
        = SyncResult.httpError 500 st.error)
    ∧ (∀ l : List StudioServerEvent,
      (∀ e ∈ l, isTerminalStateChange e = false) →
      execute_sync_loop l
        = SyncResult.httpError 500
            (some ("Execution completed without success or error status"))) := by
  refine ⟨fun table event env => rfl, ?_, ?_, ?_⟩
  · intro pre post st hpre hst
    rw [execute_sync_loop_skip pre _ hpre, execute_sync_loop, if_pos hst]
  · intro pre post st hpre hst
    have hne : ¬ st.status = ExecutionStatus.success := by
      rw [hst]; decide
    rw [execute_sync_loop_skip pre _ hpre, execute_sync_loop,
      if_neg hne, if_pos hst]
  · intro l h
    have hskip := execute_sync_loop_skip l [] h
    rw [List.append_nil] at hskip
    rw [hskip]
    rfl

/-- Witness for C9: a stream with a debug event then a successful
execution state change returns the `end` value; an immediate error state
change raises HTTP 500 with its message; a stream with only `done`
raises the generic HTTP 500. -/
theorem c9_execute_sync_behaviour_witness :
    execute_sync_loop
        ([StudioServerEvent.debug ("d")]
          ++ StudioServerEvent.executionStateChange
              { status := ExecutionStatus.success
                trace_id := "t1"
                result := some [("end", "42")] }
            :: [StudioServerEvent.done])
      = SyncResult.success "t1" (resultEnd (some [("end", "42")]))
    ∧ execute_sync_loop
        ([] ++ StudioServerEvent.executionStateChange
              { status := ExecutionStatus.error
                trace_id := "t1"
                error := some ("boom") } :: [])
      = SyncResult.httpError 500 (some ("boom"))
    ∧ execute_sync_loop [StudioServerEvent.done]
      = SyncResult.httpError 500
          (some ("Execution completed without success or error status")) :=
  ⟨c9_execute_sync_behaviour.2.1 [StudioServerEvent.debug ("d")]
     [StudioServerEvent.done]
     { status := ExecutionStatus.success
       trace_id := "t1"
       result := some [("end", "42")] } (by decide) rfl,
   c9_execute_sync_behaviour.2.2.1 [] []
     { status := ExecutionStatus.error
       trace_id := "t1"
       error := some ("boom") } (by decide) rfl,
   c9_execute_sync_behaviour.2.2.2 [StudioServerEvent.done] (by decide)⟩

end Studio
